import Mathlib

/-!
Shallow embedding of the amenity-booking engine
(`src/booking/{models,schema,rules,availability,engine}.py`).

Modelling conventions:
- Instants (`datetime`) are `Int` seconds; a naive local `datetime.combine(date, time)`
  becomes `day * 86400 + secondsOfDay`.  Wall-clock `time` values (operating hours,
  intent time) are seconds since local midnight.
- `_to_utc` attaches the building's zone to a naive local instant and converts to
  UTC; the `ZoneInfo` lookup is abstracted to a fixed offset (seconds east of UTC)
  stored on the building, `none` standing for a missing or invalid zone name,
  which the source maps to UTC (offset 0).
- Python truthiness of optional strings (`if user_id:`) is `strTruthy`:
  `None` and `""` are falsy.
- The SQLAlchemy store is a `Store` record; queries are list filters.
  `db.scalar` of an unordered query is `List.head?` of the filtered list.
- Persistence failures (`SQLAlchemyError`) are modelled by a `dbFails` flag on the
  store: when set, the first query of an operation raises.  Operations that the
  source wraps in `try/except SQLAlchemyError` translate to total functions; the
  raw transaction bodies are `Except Unit` valued, `.error ()` being an escaped
  exception.
- `with db.begin():` commits on any non-exception exit (SQLAlchemy
  `SessionTransaction.__exit__`), so an early `return` from inside the block
  flushes and commits all pending ORM mutations.  This matters for
  `update_amenity_rules`, whose invariant-rejection returns therefore persist
  the already-merged rule record.
-/

inductive BookingStatus
  | BOOKED
  | CANCELLED
deriving DecidableEq

inductive IntentType
  | BOOK
  | BOOK_AMENITY
  | CANCEL
  | CANCEL_BOOKING
  | CHECK_AVAILABILITY
deriving DecidableEq

/-- `booking.models.Building`; `tzOffset` abstracts the IANA `timezone` column to a
fixed UTC offset in seconds, `none` = absent/invalid zone (falls back to UTC). -/
structure Building where
  id : String
  name : String
  tzOffset : Option Int
deriving DecidableEq

/-- `booking.models.Amenity`. -/
structure Amenity where
  id : String
  building_id : String
  name : String
  capacity : Nat
  is_active : Bool
deriving DecidableEq

/-- `booking.models.AmenityRule`; operating times in seconds since local midnight. -/
structure AmenityRule where
  id : String
  building_id : String
  amenity_id : String
  max_capacity : Nat
  max_duration_minutes : Nat
  slot_length_minutes : Nat
  advance_booking_limit_days : Nat
  operating_start_time : Int
  operating_end_time : Int
  allow_overlap : Bool
deriving DecidableEq

/-- `booking.models.Booking`; `start_time`/`end_time` are UTC seconds and
`created_at` is a monotone creation counter (used by the `order_by created_at desc`
lookup in cancel-by-amenity). -/
structure Booking where
  id : String
  building_id : String
  amenity_id : String
  user_id : Option String
  start_time : Int
  end_time : Int
  status : BookingStatus
  created_at : Nat
deriving DecidableEq

/-- `booking.schema.BookingIntent`: `date` is a local day number, `time` seconds
since local midnight. -/
structure BookingIntent where
  intent : IntentType
  amenity : Option String := none
  date : Option Int := none
  time : Option Int := none
  building_id : Option String := none
  user_id : Option String := none
  booking_id : Option String := none
  duration_minutes : Option Nat := none
deriving DecidableEq

/-- `booking.schema.BookingResult`. -/
structure BookingResult where
  success : Bool
  reason : Option String := none
  booking_id : Option String := none
  status : Option BookingStatus := none
  amenity_id : Option String := none
  start_time : Option Int := none
  end_time : Option Int := none
  available : Option Bool := none
deriving DecidableEq

/-- `booking.schema.AmenityRuleUpdateRequest` (all optional fields are partial-update
fields; absent fields leave the stored rule untouched). -/
structure AmenityRuleUpdateRequest where
  building_id : Option String := none
  amenity_id : String
  max_capacity : Option Nat := none
  max_duration_minutes : Option Nat := none
  slot_length_minutes : Option Nat := none
  advance_booking_limit_days : Option Nat := none
  operating_start_time : Option Int := none
  operating_end_time : Option Int := none
  allow_overlap : Option Bool := none
deriving DecidableEq

/-- `booking.schema.AmenityUpsertRequest`. -/
structure AmenityUpsertRequest where
  building_id : String
  amenity_id : Option String := none
  name : String
  capacity : Option Nat := none
  is_active : Bool := true
deriving DecidableEq

/-- `booking.schema.AdminActionResult`. -/
structure AdminActionResult where
  success : Bool
  reason : Option String := none
  amenity_id : Option String := none
  rule_id : Option String := none
deriving DecidableEq

/-- The relational store plus ambient state: `fresh` generates ids and
`created_at` stamps, `now` is the current UTC instant read by
`check_advance_limit`, `dbFails` models the persistence layer raising
`SQLAlchemyError` on the operation's first query. -/
structure Store where
  buildings : List Building
  amenities : List Amenity
  rules : List AmenityRule
  bookings : List Booking
  fresh : Nat := 0
  now : Int := 0
  dbFails : Bool := false
deriving DecidableEq

/-- Python truthiness of an optional string (`None` and `""` are falsy). -/
def strTruthy : Option String → Bool
  | none => false
  | some s => !(s == "")

/-- `_to_utc` on a naive local instant: attach the zone and convert;
with the zone abstracted to an offset this is subtraction. -/
def toUtc (localDt : Int) (tzOffset : Int) : Int :=
  localDt - tzOffset

/-- Offset used by the engine: `building.timezone if building else "UTC"`,
with `ZoneInfo` failure falling back to UTC. -/
def tzOffsetOf : Option Building → Int
  | none => 0
  | some b => b.tzOffset.getD 0

/-! ## booking/availability.py -/

/-- The half-open interval test of `overlap_query` (and of the per-slot count in
`slots_within_capacity`): `existing.start_time < end ∧ existing.end_time > start`. -/
def overlapsSlot (slot_start slot_end : Int) (b : Booking) : Bool :=
  decide (b.start_time < slot_end) && decide (b.end_time > slot_start)

/-- `overlap_query` filter: BOOKED rows of the amenity overlapping `[start, end)`. -/
def overlap_query (st : Store) (amenity_id : String) (start_time end_time : Int) :
    List Booking :=
  st.bookings.filter fun b =>
    decide (b.amenity_id = amenity_id) && decide (b.status = BookingStatus.BOOKED) &&
      overlapsSlot start_time end_time b

/-- `split_into_slots`: the source's `while cursor < end_time` loop with
`slot_delta = timedelta(minutes=slot_length_minutes)` (here `slot_length_minutes * 60`
seconds).  The loop terminates only for positive slot lengths; the Lean function
also guards on `0 < slot_length_minutes` to be total, and agrees with the loop
whenever the loop terminates. -/
def split_into_slots (start_time end_time : Int) (slot_length_minutes : Int) :
    List (Int × Int) :=
  if h : start_time < end_time ∧ 0 < slot_length_minutes then
    (start_time, start_time + slot_length_minutes * 60) ::
      split_into_slots (start_time + slot_length_minutes * 60) end_time slot_length_minutes
  else
    []
termination_by (end_time - start_time).toNat
decreasing_by
  omega

/-- Per-slot concurrent count: `sum(1 for booking in overlap_list if ...)`. -/
def slotConcurrent (overlap_list : List Booking) (slot_start slot_end : Int) : Nat :=
  overlap_list.countP (overlapsSlot slot_start slot_end)

/-- `slots_within_capacity`: the early-`return False` loop is `List.all` of the
negated at-capacity test. -/
def slots_within_capacity (overlaps : List Booking) (start_time end_time : Int)
    (slot_length_minutes : Int) (max_capacity : Nat) : Bool :=
  (split_into_slots start_time end_time slot_length_minutes).all fun slot =>
    decide (slotConcurrent overlaps slot.1 slot.2 < max_capacity)

/-! ## booking/rules.py -/

/-- `booking.rules.RuleCheckResult`. -/
structure RuleCheckResult where
  allowed : Bool
  reason : Option String := none
deriving DecidableEq

/-- `RuleEngine.resolve_duration_minutes`.  `requested or rule.slot_length_minutes`
is Python truthiness: `None` and `0` both default to the slot length. -/
def resolve_duration_minutes (requested : Option Nat) (rule : AmenityRule) :
    Nat × RuleCheckResult :=
  let duration := match requested with
    | none => rule.slot_length_minutes
    | some d => if d = 0 then rule.slot_length_minutes else d
  if rule.max_duration_minutes < duration then
    (duration,
      { allowed := false,
        reason := some ("Requested duration exceeds max_duration_minutes (" ++
          toString rule.max_duration_minutes ++ ").") })
  else if duration % rule.slot_length_minutes ≠ 0 then
    (duration,
      { allowed := false,
        reason := some ("Duration must be a multiple of slot_length_minutes (" ++
          toString rule.slot_length_minutes ++ ").") })
  else
    (duration, { allowed := true })

/-- `RuleEngine.compute_end_time`. -/
def compute_end_time (start_time : Int) (duration_minutes : Nat) : Int :=
  start_time + (duration_minutes : Int) * 60

/-- `RuleEngine.check_advance_limit`; `now_utc` is the engine's current instant. -/
def check_advance_limit (start_time : Int) (rule : AmenityRule) (now_utc : Int) :
    RuleCheckResult :=
  if start_time < now_utc then
    { allowed := false, reason := some "Requested time is in the past." }
  else if start_time > now_utc + (rule.advance_booking_limit_days : Int) * 86400 then
    { allowed := false,
      reason := some ("Requested time exceeds advance booking window (" ++
        toString rule.advance_booking_limit_days ++ " days).") }
  else
    { allowed := true }

/-- `RuleEngine.check_operating_window`: compares wall-clock time of day only
(`timetz()` ≡ seconds mod 86400; Lean's `%` on `Int` is Euclidean, giving a value
in `[0, 86400)` exactly like Python's time of day).  The interpolated
operating-hours text is elided from the reason string. -/
def check_operating_window (start_time end_time : Int) (rule : AmenityRule) :
    RuleCheckResult :=
  if start_time % 86400 < rule.operating_start_time ∨
      end_time % 86400 > rule.operating_end_time then
    { allowed := false, reason := some "Requested time is outside operating hours." }
  else
    { allowed := true }

/-- `RuleEngine.check_slot_alignment`: offsets in seconds from the anchor
`operating_start_time` on the request's local date (`datetime.combine(start.date(), ...)`
≡ floor to the day, which is Euclidean division). -/
def check_slot_alignment (start_time end_time : Int) (rule : AmenityRule) :
    RuleCheckResult :=
  let anchor := start_time / 86400 * 86400 + rule.operating_start_time
  let slot_seconds := (rule.slot_length_minutes : Int) * 60
  let start_offset_seconds := start_time - anchor
  let end_offset_seconds := end_time - anchor
  if start_offset_seconds < 0 ∨ end_offset_seconds ≤ 0 then
    { allowed := false, reason := some "Requested time is outside slot boundaries." }
  else if start_offset_seconds % slot_seconds ≠ 0 ∨ end_offset_seconds % slot_seconds ≠ 0 then
    { allowed := false,
      reason := some ("Booking must align with " ++ toString rule.slot_length_minutes ++
        "-minute slot boundaries.") }
  else
    { allowed := true }

/-! ## booking/engine.py -/

/-- `str.lower()` / SQL `func.lower`, character-wise. -/
def pyLower (s : String) : String :=
  String.mk (s.data.map Char.toLower)

/-- `_resolve_amenity`: case-insensitive active-name lookup, optionally scoped to a
building (`if building_id:` is truthiness). -/
def resolve_amenity (st : Store) (amenity_name : String) (building_id : Option String) :
    Option Amenity :=
  (st.amenities.filter fun a =>
    decide (pyLower a.name = pyLower amenity_name) && a.is_active &&
      (if strTruthy building_id then decide (some a.building_id = building_id) else true)).head?

/-- `_load_rule`. -/
def load_rule (st : Store) (amenity_id : String) : Option AmenityRule :=
  (st.rules.filter fun r => decide (r.amenity_id = amenity_id)).head?

/-- `_load_building` (`db.get(Building, building_id) if building_id else None`). -/
def load_building (st : Store) (building_id : String) : Option Building :=
  if building_id = "" then none
  else (st.buildings.filter fun b => decide (b.id = building_id)).head?

/-- `_run_availability_checks`; `lock_rows` only changes the SQL statement and has
no effect in this sequential model. -/
def run_availability_checks (st : Store) (amenity : Amenity) (rule : AmenityRule)
    (start_time end_time : Int) (user_id : Option String) (_lock_rows : Bool) :
    Bool × Option String :=
  let overlaps := overlap_query st amenity.id start_time end_time
  if strTruthy user_id &&
      overlaps.any (fun existing => decide (existing.user_id = user_id)) then
    (false, some "User already has an overlapping booking for this amenity.")
  else if !slots_within_capacity overlaps start_time end_time
      (rule.slot_length_minutes : Int) rule.max_capacity then
    (false, some "No capacity available for one or more requested slots.")
  else
    (true, none)

/-- `datetime.combine(intent.date, intent.time)` as a local instant. -/
def requested_start_local (i : BookingIntent) : Int :=
  i.date.getD 0 * 86400 + i.time.getD 0

/-- Timezone offset of the amenity's building, per `_load_building` + fallback. -/
def pipeline_tz (st : Store) (amenity : Amenity) : Int :=
  tzOffsetOf (load_building st amenity.building_id)

def requested_start_utc (st : Store) (amenity : Amenity) (i : BookingIntent) : Int :=
  toUtc (requested_start_local i) (pipeline_tz st amenity)

def resolved_duration (i : BookingIntent) (rule : AmenityRule) : Nat × RuleCheckResult :=
  resolve_duration_minutes i.duration_minutes rule

def requested_end_local (i : BookingIntent) (rule : AmenityRule) : Int :=
  compute_end_time (requested_start_local i) (resolved_duration i rule).1

def requested_end_utc (st : Store) (amenity : Amenity) (i : BookingIntent)
    (rule : AmenityRule) : Int :=
  toUtc (requested_end_local i rule) (pipeline_tz st amenity)

/-- The five pipeline checks, in the source's order. -/
def duration_check (i : BookingIntent) (rule : AmenityRule) : RuleCheckResult :=
  (resolved_duration i rule).2

def advance_check (st : Store) (amenity : Amenity) (i : BookingIntent)
    (rule : AmenityRule) : RuleCheckResult :=
  check_advance_limit (requested_start_utc st amenity i) rule st.now

def hours_check (i : BookingIntent) (rule : AmenityRule) : RuleCheckResult :=
  check_operating_window (requested_start_local i) (requested_end_local i rule) rule

def slot_alignment_check (i : BookingIntent) (rule : AmenityRule) : RuleCheckResult :=
  check_slot_alignment (requested_start_local i) (requested_end_local i rule) rule

def availability_check (st : Store) (amenity : Amenity) (rule : AmenityRule)
    (i : BookingIntent) (lock_rows : Bool) : Bool × Option String :=
  run_availability_checks st amenity rule (requested_start_utc st amenity i)
    (requested_end_utc st amenity i rule) i.user_id lock_rows

/-- `_create_booking` after amenity and rule resolution (lines 103-159). -/
def create_booking_checked (st : Store) (i : BookingIntent) (amenity : Amenity)
    (rule : AmenityRule) : BookingResult × Store :=
  if (duration_check i rule).allowed = false then
    ({ success := false, reason := (duration_check i rule).reason }, st)
  else if (advance_check st amenity i rule).allowed = false then
    ({ success := false, reason := (advance_check st amenity i rule).reason }, st)
  else if (hours_check i rule).allowed = false then
    ({ success := false, reason := (hours_check i rule).reason }, st)
  else if (slot_alignment_check i rule).allowed = false then
    ({ success := false, reason := (slot_alignment_check i rule).reason }, st)
  else if (availability_check st amenity rule i true).1 = false then
    ({ success := false, reason := (availability_check st amenity rule i true).2 }, st)
  else
    let booking : Booking :=
      { id := "bk-" ++ toString st.fresh,
        building_id := amenity.building_id,
        amenity_id := amenity.id,
        user_id := i.user_id,
        start_time := requested_start_utc st amenity i,
        end_time := requested_end_utc st amenity i rule,
        status := BookingStatus.BOOKED,
        created_at := st.fresh }
    ({ success := true,
       booking_id := some booking.id,
       status := some BookingStatus.BOOKED,
       amenity_id := some amenity.id,
       start_time := some booking.start_time,
       end_time := some booking.end_time,
       available := some true },
     { st with bookings := st.bookings ++ [booking], fresh := st.fresh + 1 })

/-- `_create_booking` body after the request-shape check and first query. -/
def create_booking_core (st : Store) (i : BookingIntent) : BookingResult × Store :=
  match resolve_amenity st (i.amenity.getD "") i.building_id with
  | none => ({ success := false, reason := some "Amenity not found or inactive." }, st)
  | some amenity =>
    match load_rule st amenity.id with
    | none => ({ success := false, reason := some "Amenity rules are not configured." }, st)
    | some rule => create_booking_checked st i amenity rule

/-- `_create_booking` transaction body; `.error ()` is an uncaught `SQLAlchemyError`. -/
def create_booking_tx (st : Store) (i : BookingIntent) :
    Except Unit (BookingResult × Store) :=
  if ¬ strTruthy i.amenity ∨ i.date = none ∨ i.time = none then
    .ok ({ success := false, reason := some "Missing amenity/date/time for booking intent." }, st)
  else if st.dbFails then .error ()
  else .ok (create_booking_core st i)

/-- `_create_booking` with its `except SQLAlchemyError` handler. -/
def create_booking (st : Store) (i : BookingIntent) : BookingResult × Store :=
  match create_booking_tx st i with
  | .ok r => r
  | .error _ => ({ success := false, reason := some "Database error while creating booking." }, st)

/-- `db.scalar` of the cancel-by-amenity query `order_by(created_at.desc())`:
the most recently created match (`created_at` stamps are distinct in this model;
ties keep the earlier row). -/
def most_recent : List Booking → Option Booking
  | [] => none
  | b :: bs =>
    match most_recent bs with
    | none => some b
    | some c => if c.created_at > b.created_at then some c else some b

/-- `_cancel_booking` body after the request-shape check and first query. -/
def cancel_booking_core (st : Store) (i : BookingIntent) : BookingResult × Store :=
  let finish : Option Booking → BookingResult × Store := fun found =>
    match found with
    | none => ({ success := false, reason := some "Booking not found." }, st)
    | some booking =>
      if booking.status = BookingStatus.CANCELLED then
        ({ success := false, reason := some "Booking already cancelled." }, st)
      else
        ({ success := true,
           booking_id := some booking.id,
           status := some BookingStatus.CANCELLED,
           amenity_id := some booking.amenity_id,
           start_time := some booking.start_time,
           end_time := some booking.end_time,
           available := some true },
         { st with bookings := st.bookings.map fun b =>
             if b.id = booking.id then { b with status := BookingStatus.CANCELLED } else b })
  if strTruthy i.booking_id then
    match (st.bookings.filter fun b => decide (some b.id = i.booking_id)).head? with
    | some booking =>
      if strTruthy i.user_id ∧ booking.user_id ≠ i.user_id then
        ({ success := false, reason := some "Booking does not belong to this user." }, st)
      else finish (some booking)
    | none => finish none
  else
    match resolve_amenity st (i.amenity.getD "") i.building_id with
    | none => ({ success := false, reason := some "Amenity not found." }, st)
    | some amenity =>
      let tz := tzOffsetOf (load_building st amenity.building_id)
      let requested_start := toUtc (requested_start_local i) tz
      let candidates := st.bookings.filter fun b =>
        decide (b.amenity_id = amenity.id) && decide (b.start_time = requested_start) &&
          decide (b.status = BookingStatus.BOOKED) &&
          (if strTruthy i.user_id then decide (b.user_id = i.user_id) else true)
      finish (most_recent candidates)

/-- `_cancel_booking` transaction body. -/
def cancel_booking_tx (st : Store) (i : BookingIntent) :
    Except Unit (BookingResult × Store) :=
  if ¬ strTruthy i.booking_id ∧ (¬ strTruthy i.amenity ∨ i.date = none ∨ i.time = none) then
    .ok ({ success := false, reason := some "Missing amenity/date/time for cancel intent." }, st)
  else if st.dbFails then .error ()
  else .ok (cancel_booking_core st i)

/-- `_cancel_booking` with its `except SQLAlchemyError` handler. -/
def cancel_booking (st : Store) (i : BookingIntent) : BookingResult × Store :=
  match cancel_booking_tx st i with
  | .ok r => r
  | .error _ => ({ success := false, reason := some "Database error while cancelling booking." }, st)

/-- `_check_availability` after amenity resolution: the same pipeline as
`_create_booking`, with `available` populated and no write. -/
def check_availability_core (st : Store) (i : BookingIntent) : BookingResult × Store :=
  match resolve_amenity st (i.amenity.getD "") i.building_id with
  | none =>
    ({ success := false, reason := some "Amenity not found or inactive.",
       available := some false }, st)
  | some amenity =>
    match load_rule st amenity.id with
    | none =>
      ({ success := false, reason := some "Amenity rules are not configured.",
         available := some false }, st)
    | some rule =>
      if (duration_check i rule).allowed = false then
        ({ success := false, reason := (duration_check i rule).reason,
           available := some false }, st)
      else if (advance_check st amenity i rule).allowed = false then
        ({ success := false, reason := (advance_check st amenity i rule).reason,
           available := some false }, st)
      else if (hours_check i rule).allowed = false then
        ({ success := false, reason := (hours_check i rule).reason,
           available := some false }, st)
      else if (slot_alignment_check i rule).allowed = false then
        ({ success := false, reason := (slot_alignment_check i rule).reason,
           available := some false }, st)
      else
        ({ success := (availability_check st amenity rule i false).1,
           reason := (availability_check st amenity rule i false).2,
           amenity_id := some amenity.id,
           start_time := some (requested_start_utc st amenity i),
           end_time := some (requested_end_utc st amenity i rule),
           available := some (availability_check st amenity rule i false).1 }, st)

/-- `_check_availability`: NOTE — unlike `_create_booking` and `_cancel_booking`,
the source wraps this body in no `try/except SQLAlchemyError`, so a persistence
error propagates (`.error ()`). -/
def check_availability_tx (st : Store) (i : BookingIntent) :
    Except Unit (BookingResult × Store) :=
  if ¬ strTruthy i.amenity ∨ i.date = none ∨ i.time = none then
    .ok ({ success := false, reason := some "Missing amenity/date/time for availability intent.",
           available := some false }, st)
  else if st.dbFails then .error ()
  else .ok (check_availability_core st i)

/-- `BookingIntent.validate_by_intent` plus the pydantic field constraints
(`amenity` min_length 1, `duration_minutes ≥ 1`). -/
def validateIntent (i : BookingIntent) : Bool :=
  let needs_schedule :=
    match i.intent with
    | .BOOK | .BOOK_AMENITY | .CHECK_AVAILABILITY => true
    | _ => false
  let cancel_without_booking_id :=
    (match i.intent with
     | .CANCEL | .CANCEL_BOOKING => true
     | _ => false) && !(strTruthy i.booking_id)
  let schedule_ok :=
    if needs_schedule || cancel_without_booking_id then
      strTruthy i.amenity && i.date.isSome && i.time.isSome
    else true
  schedule_ok && decide (i.amenity ≠ some "") && decide (i.duration_minutes ≠ some 0)

/-- `execute_booking`: payload validation (a `none` payload or an invalid model is a
pydantic `ValidationError`, caught and surfaced as a request-shape rejection) and
dispatch on the intent kind.  Only the check-availability branch can propagate a
persistence error. -/
def execute_booking (st : Store) (payload : Option BookingIntent) :
    Except Unit (BookingResult × Store) :=
  match payload with
  | none =>
    .ok ({ success := false, reason := some "Invalid intent payload.",
           available := some false }, st)
  | some i =>
    if !validateIntent i then
      .ok ({ success := false, reason := some "Invalid intent payload.",
             available := some false }, st)
    else
      match i.intent with
      | .CANCEL | .CANCEL_BOOKING => .ok (cancel_booking st i)
      | .CHECK_AVAILABILITY => check_availability_tx st i
      | .BOOK | .BOOK_AMENITY => .ok (create_booking st i)

/-- `AmenityUpsertRequest` pydantic constraints (`name` min_length 1, `capacity ≥ 1`). -/
def validateUpsertRequest (m : AmenityUpsertRequest) : Bool :=
  decide (m.name ≠ "") && decide (m.capacity ≠ some 0)

/-- `upsert_amenity` body after validation and first query. -/
def upsert_amenity_core (st : Store) (m : AmenityUpsertRequest) :
    AdminActionResult × Store :=
  match (st.buildings.filter fun b => decide (b.id = m.building_id)).head? with
  | none => ({ success := false, reason := some "Building not found." }, st)
  | some _ =>
    let existing : Option Amenity := match m.amenity_id with
      | some aid => if aid = "" then none
          else (st.amenities.filter fun a => decide (a.id = aid)).head?
      | none => none
    match existing with
    | some amenity =>
      if amenity.building_id ≠ m.building_id then
        ({ success := false, reason := some "Amenity belongs to a different building." }, st)
      else
        let updated : Amenity :=
          { amenity with
            name := m.name,
            capacity := match m.capacity with | some c => c | none => amenity.capacity,
            is_active := m.is_active }
        ({ success := true, amenity_id := some amenity.id },
         { st with amenities := st.amenities.map fun a =>
             if a.id = amenity.id then updated else a })
    | none =>
      let amenity : Amenity :=
        { id := "am-" ++ toString st.fresh,
          building_id := m.building_id,
          name := m.name,
          capacity := match m.capacity with | none => 1 | some 0 => 1 | some c => c,
          is_active := m.is_active }
      ({ success := true, amenity_id := some amenity.id },
       { st with amenities := st.amenities ++ [amenity], fresh := st.fresh + 1 })

/-- `upsert_amenity` with validation and `except SQLAlchemyError`. -/
def upsert_amenity (st : Store) (payload : Option AmenityUpsertRequest) :
    AdminActionResult × Store :=
  match payload with
  | none => ({ success := false, reason := some "Invalid amenity payload." }, st)
  | some m =>
    if !validateUpsertRequest m then
      ({ success := false, reason := some "Invalid amenity payload." }, st)
    else if st.dbFails then
      ({ success := false, reason := some "Database error while upserting amenity." }, st)
    else upsert_amenity_core st m

/-- `AmenityRuleUpdateRequest` pydantic constraints: the optional numeric fields are
`≥ 1`, and `validate_time_window` rejects a request carrying both an
`operating_start_time` and an `operating_end_time` with `start ≥ end`. -/
def validateRuleRequest (m : AmenityRuleUpdateRequest) : Bool :=
  decide (m.max_capacity ≠ some 0) && decide (m.max_duration_minutes ≠ some 0) &&
    decide (m.slot_length_minutes ≠ some 0) &&
    (match m.operating_start_time, m.operating_end_time with
     | some s, some e => decide (s < e)
     | _, _ => true)

/-- Column defaults of a freshly created `AmenityRule` row. -/
def default_rule (st : Store) (amenity : Amenity) (amenity_id : String) : AmenityRule :=
  { id := "rl-" ++ toString st.fresh,
    building_id := amenity.building_id,
    amenity_id := amenity_id,
    max_capacity := 1,
    max_duration_minutes := 60,
    slot_length_minutes := 30,
    advance_booking_limit_days := 7,
    operating_start_time := 6 * 3600,
    operating_end_time := 22 * 3600,
    allow_overlap := false }

/-- The partial-update merge of `update_amenity_rules` (only fields present in the
request are applied). -/
def merge_rule (rule : AmenityRule) (m : AmenityRuleUpdateRequest) : AmenityRule :=
  { rule with
    max_capacity := m.max_capacity.getD rule.max_capacity,
    max_duration_minutes := m.max_duration_minutes.getD rule.max_duration_minutes,
    slot_length_minutes := m.slot_length_minutes.getD rule.slot_length_minutes,
    advance_booking_limit_days := m.advance_booking_limit_days.getD rule.advance_booking_limit_days,
    operating_start_time := m.operating_start_time.getD rule.operating_start_time,
    operating_end_time := m.operating_end_time.getD rule.operating_end_time,
    allow_overlap := m.allow_overlap.getD rule.allow_overlap }

/-- `update_amenity_rules` body after validation and first query.  The ORM
mutations (merged fields, `db.add` of a new rule) are pending inside
`with db.begin():`; every `return` below exits that block normally and therefore
COMMITS them — including the three invariant-rejection returns, which is why the
rejection branches also carry the `committed` store. -/
def update_amenity_rules_core (st : Store) (m : AmenityRuleUpdateRequest) :
    AdminActionResult × Store :=
  match (st.amenities.filter fun a => decide (a.id = m.amenity_id)).head? with
  | none => ({ success := false, reason := some "Amenity not found." }, st)
  | some amenity =>
    if strTruthy m.building_id ∧ m.building_id ≠ some amenity.building_id then
      ({ success := false, reason := some "Amenity and building_id do not match." }, st)
    else
      let existing := load_rule st m.amenity_id
      let base := match existing with
        | none => default_rule st amenity m.amenity_id
        | some r => { r with building_id := amenity.building_id }
      let rule := merge_rule base m
      let committed : Store := match existing with
        | none => { st with rules := st.rules ++ [rule], fresh := st.fresh + 1 }
        | some _ => { st with rules := st.rules.map fun r =>
            if r.id = rule.id then rule else r }
      if rule.max_duration_minutes < rule.slot_length_minutes then
        ({ success := false,
           reason := some "max_duration_minutes must be greater than or equal to slot_length_minutes." },
         committed)
      else if rule.max_duration_minutes % rule.slot_length_minutes ≠ 0 then
        ({ success := false,
           reason := some "max_duration_minutes must be a multiple of slot_length_minutes." },
         committed)
      else if rule.operating_start_time ≥ rule.operating_end_time then
        ({ success := false,
           reason := some "operating_start_time must be earlier than operating_end_time." },
         committed)
      else
        ({ success := true, amenity_id := some amenity.id, rule_id := some rule.id },
         committed)

/-- `update_amenity_rules` with validation and `except SQLAlchemyError`. -/
def update_amenity_rules (st : Store) (payload : Option AmenityRuleUpdateRequest) :
    AdminActionResult × Store :=
  match payload with
  | none => ({ success := false, reason := some "Invalid rule payload." }, st)
  | some m =>
    if !validateRuleRequest m then
      ({ success := false, reason := some "Invalid rule payload." }, st)
    else if st.dbFails then
      ({ success := false, reason := some "Database error while updating rules." }, st)
    else update_amenity_rules_core st m

/-! ## Concrete sample data (used by closed evaluations of the definitions) -/

def bld1 : Building :=
  { id := "bld1", name := "HQ", tzOffset := some 0 }

def gym : Amenity :=
  { id := "amen1", building_id := "bld1", name := "Gym", capacity := 1,
    is_active := true }

def gymRule : AmenityRule :=
  { id := "r1", building_id := "bld1", amenity_id := "amen1", max_capacity := 2,
    max_duration_minutes := 60, slot_length_minutes := 30,
    advance_booking_limit_days := 7, operating_start_time := 21600,
    operating_end_time := 79200, allow_overlap := false }

def baseStore : Store :=
  { buildings := [bld1], amenities := [gym], rules := [gymRule], bookings := [] }

def bookingU9 : Booking :=
  { id := "b1", building_id := "bld1", amenity_id := "amen1", user_id := some "u9",
    start_time := 36000, end_time := 39600, status := BookingStatus.BOOKED,
    created_at := 0 }

def storeWithU9 : Store := { baseStore with bookings := [bookingU9] }

def storeCancelledU9 : Store :=
  { baseStore with bookings := [{ bookingU9 with status := BookingStatus.CANCELLED }] }

def cancelIntentById : BookingIntent :=
  { intent := IntentType.CANCEL, booking_id := some "b1" }

def bookIntent45 : BookingIntent :=
  { intent := IntentType.BOOK, amenity := some "Gym", date := some 100,
    time := some 36000, building_id := some "bld1", user_id := some "u1",
    duration_minutes := some 45 }

def bookIntent60 : BookingIntent :=
  { bookIntent45 with duration_minutes := some 60 }

def checkIntent60 : BookingIntent :=
  { bookIntent60 with intent := IntentType.CHECK_AVAILABILITY }

def storeFail : Store := { baseStore with dbFails := true }

def ruleReq45 : AmenityRuleUpdateRequest :=
  { amenity_id := "amen1", slot_length_minutes := some 45 }

/-! ## Helper lemmas -/

lemma split_into_slots_eq_def (s e m : Int) :
    split_into_slots s e m =
      if s < e ∧ 0 < m then
        (s, s + m * 60) :: split_into_slots (s + m * 60) e m
      else [] := by
  rw [split_into_slots, dite_eq_ite]

lemma split_into_slots_get? (e m : Int) (hm : 0 < m) :
    ∀ (k : Nat) (s : Int),
      (split_into_slots s e m).get? k =
        if s + (k : Int) * (m * 60) < e then
          some (s + (k : Int) * (m * 60), s + ((k : Int) + 1) * (m * 60))
        else none := by
  intro k
  induction k with
  | zero =>
    intro s
    rw [split_into_slots_eq_def]
    by_cases hse : s < e
    · simp [hse, hm]
    · simp [hse, hm]
  | succ k ih =>
    intro s
    rw [split_into_slots_eq_def]
    by_cases hse : s < e
    · simp only [hse, hm, and_self, if_true, List.get?_cons_succ]
      rw [ih (s + m * 60)]
      have h1 : s + m * 60 + (k : Int) * (m * 60) = s + ((k : Int) + 1) * (m * 60) := by
        ring
      have h2 : s + m * 60 + ((k : Int) + 1) * (m * 60) =
          s + (((k : Int) + 1) + 1) * (m * 60) := by ring
      push_cast
      rw [h1, h2]
    · simp only [hse, false_and, if_false, List.get?_nil]
      have hk : (0 : Int) ≤ (k : Int) * (m * 60) :=
        mul_nonneg (Int.natCast_nonneg k) (by linarith)
      have hcond : ¬ (s + ((k : Int) + 1) * (m * 60) < e) := by
        intro hcon
        nlinarith
      push_cast
      rw [if_neg hcond]

lemma split_into_slots_length_iff (e m : Int) (hm : 0 < m) (k : Nat) (s : Int) :
    k < (split_into_slots s e m).length ↔ s + (k : Int) * (m * 60) < e := by
  have h := split_into_slots_get? e m hm k s
  constructor
  · intro hk
    by_contra hc
    rw [if_neg hc, List.get?_eq_none] at h
    omega
  · intro hc
    by_contra hk
    push_neg at hk
    rw [if_pos hc, List.get?_eq_none.mpr hk] at h
    exact absurd h (by simp)

/-! ## Claim theorems -/

/-- C7: for `slot_length_minutes ≥ 1`, `split_into_slots` terminates and returns the
ordered list of consecutive fixed-width slots of `[start, end)`: a `k`-th slot exists
iff its start `start + k·w` (with `w = slot_length_minutes` minutes = `m * 60`
seconds) lies strictly before `end`; the `k`-th slot is exactly
`(start + k·w, start + (k+1)·w)` — so the first slot starts at `start`, every slot
has width exactly `w`, and each slot begins where the previous one ends; and the
result is empty iff `start ≥ end`. -/
theorem split_into_slots_spec (s e m : Int) (hm : 1 ≤ m) :
    (∀ k : Nat, k < (split_into_slots s e m).length ↔ s + (k : Int) * (m * 60) < e) ∧
    (∀ k : Nat,
      (split_into_slots s e m).get? k =
        if s + (k : Int) * (m * 60) < e then
          some (s + (k : Int) * (m * 60), s + ((k : Int) + 1) * (m * 60))
        else none) ∧
    (split_into_slots s e m = [] ↔ e ≤ s) := by
  have hm' : 0 < m := by omega
  refine ⟨fun k => split_into_slots_length_iff e m hm' k s,
          fun k => split_into_slots_get? e m hm' k s, ?_⟩
  have h0 := split_into_slots_length_iff e m hm' 0 s
  constructor
  · intro hnil
    rw [hnil] at h0
    simp only [List.length_nil, Nat.lt_irrefl, false_iff] at h0
    push_cast at h0
    omega
  · intro hle
    rw [split_into_slots_eq_def, if_neg (by omega : ¬(s < e ∧ 0 < m))]

/-- Witness for C7 at concrete inputs: a one-hour interval with 30-minute slots has a
slot 2 exactly when `0 + 2·1800 < 3600` (it does not), and an empty interval yields
no slots. -/
theorem split_into_slots_spec_witness :
    ((2 : Nat) < (split_into_slots 0 3600 30).length ↔
        (0 : Int) + ((2 : Nat) : Int) * (30 * 60) < 3600) ∧
    (split_into_slots 3600 3600 30 = [] ↔ (3600 : Int) ≤ 3600) :=
  ⟨(split_into_slots_spec 0 3600 30 (by decide)).1 2,
   (split_into_slots_spec 3600 3600 30 (by decide)).2.2⟩

/-- C1: for `slot_length_minutes ≥ 1`, `slots_within_capacity` returns `false` iff
some slot produced by `split_into_slots` over `[start, end)` is overlapped — by the
half-open test `existing.start < slot_end ∧ existing.end > slot_start` — by at least
`max_capacity` of the given bookings; in particular a multi-slot request is rejected
as soon as any single covered slot is at capacity, independently of the
whole-interval overlap count. -/
theorem slots_within_capacity_false_iff (overlaps : List Booking) (s e m : Int)
    (cap : Nat) (_hm : 1 ≤ m) :
    slots_within_capacity overlaps s e m cap = false ↔
      ∃ slot ∈ split_into_slots s e m, cap ≤ slotConcurrent overlaps slot.1 slot.2 := by
  unfold slots_within_capacity
  rw [← Bool.not_eq_true, List.all_eq_true]
  simp only [decide_eq_true_eq, not_forall, not_lt, exists_prop]

/-- Witness for C1: one existing booking on `[1800, 3600)` saturates (capacity 1) the
second of the two 30-minute slots of `[0, 3600)`. -/
theorem slots_within_capacity_false_iff_witness :
    slots_within_capacity
        [{ id := "b1", building_id := "bld1", amenity_id := "amen1",
           user_id := some "u1", start_time := 1800, end_time := 3600,
           status := BookingStatus.BOOKED, created_at := 0 }] 0 3600 30 1 = false ↔
      ∃ slot ∈ split_into_slots 0 3600 30,
        1 ≤ slotConcurrent
          [{ id := "b1", building_id := "bld1", amenity_id := "amen1",
             user_id := some "u1", start_time := 1800, end_time := 3600,
             status := BookingStatus.BOOKED, created_at := 0 }] slot.1 slot.2 :=
  slots_within_capacity_false_iff _ 0 3600 30 1 (by decide)

/-- C9: `resolve_duration_minutes` on a rule whose stored limits satisfy the
`slot_length ≤ max_duration` invariant: an absent requested duration resolves to
`slot_length_minutes` and passes; a requested duration above
`max_duration_minutes` is rejected with the exceeds-max-duration reason; one
within the limit but not a multiple of `slot_length_minutes` is rejected with the
must-be-a-multiple reason; otherwise the requested value passes unchanged. -/
theorem resolve_duration_minutes_spec (rule : AmenityRule)
    (hinv : rule.slot_length_minutes ≤ rule.max_duration_minutes) :
    resolve_duration_minutes none rule = (rule.slot_length_minutes, { allowed := true }) ∧
    (∀ d : Nat, rule.max_duration_minutes < d →
      (resolve_duration_minutes (some d) rule).2 =
        { allowed := false,
          reason := some ("Requested duration exceeds max_duration_minutes (" ++
            toString rule.max_duration_minutes ++ ").") }) ∧
    (∀ d : Nat, d ≤ rule.max_duration_minutes → d % rule.slot_length_minutes ≠ 0 →
      (resolve_duration_minutes (some d) rule).2 =
        { allowed := false,
          reason := some ("Duration must be a multiple of slot_length_minutes (" ++
            toString rule.slot_length_minutes ++ ").") }) ∧
    (∀ d : Nat, 1 ≤ d → d ≤ rule.max_duration_minutes →
      d % rule.slot_length_minutes = 0 →
      resolve_duration_minutes (some d) rule = (d, { allowed := true })) := by
  refine ⟨?_, ?_, ?_, ?_⟩
  · simp only [resolve_duration_minutes]
    rw [if_neg (by omega), if_neg (by simp [Nat.mod_self])]
  · intro d hd
    have hd0 : ¬ d = 0 := by omega
    simp only [resolve_duration_minutes]
    rw [if_neg hd0, if_pos (by omega)]
  · intro d hd hmod
    have hd0 : ¬ d = 0 := by
      intro h
      exact hmod (by simp [h])
    simp only [resolve_duration_minutes]
    rw [if_neg hd0, if_neg (by omega), if_pos (by simpa using hmod)]
  · intro d hd1 hdmax hmod
    have hd0 : ¬ d = 0 := by omega
    simp only [resolve_duration_minutes]
    rw [if_neg hd0, if_neg (by omega), if_neg (by simpa using hmod)]

/-- Witness for C9 on the spec's example rule (`max_duration=60`, `slot_length=30`):
duration 90 is rejected as exceeding, 45 as not a multiple, 60 is accepted, and an
absent duration defaults to 30 and passes. -/
theorem resolve_duration_minutes_spec_witness :
    resolve_duration_minutes none
        { id := "r1", building_id := "b1", amenity_id := "a1", max_capacity := 2,
          max_duration_minutes := 60, slot_length_minutes := 30,
          advance_booking_limit_days := 7, operating_start_time := 21600,
          operating_end_time := 79200, allow_overlap := false } =
      (30, { allowed := true }) ∧
    (resolve_duration_minutes (some 90)
        { id := "r1", building_id := "b1", amenity_id := "a1", max_capacity := 2,
          max_duration_minutes := 60, slot_length_minutes := 30,
          advance_booking_limit_days := 7, operating_start_time := 21600,
          operating_end_time := 79200, allow_overlap := false }).2 =
      { allowed := false,
        reason := some ("Requested duration exceeds max_duration_minutes (" ++
          toString (60 : Nat) ++ ").") } ∧
    (resolve_duration_minutes (some 45)
        { id := "r1", building_id := "b1", amenity_id := "a1", max_capacity := 2,
          max_duration_minutes := 60, slot_length_minutes := 30,
          advance_booking_limit_days := 7, operating_start_time := 21600,
          operating_end_time := 79200, allow_overlap := false }).2 =
      { allowed := false,
        reason := some ("Duration must be a multiple of slot_length_minutes (" ++
          toString (30 : Nat) ++ ").") } ∧
    resolve_duration_minutes (some 60)
        { id := "r1", building_id := "b1", amenity_id := "a1", max_capacity := 2,
          max_duration_minutes := 60, slot_length_minutes := 30,
          advance_booking_limit_days := 7, operating_start_time := 21600,
          operating_end_time := 79200, allow_overlap := false } =
      (60, { allowed := true }) :=
  ⟨(resolve_duration_minutes_spec _ (by decide)).1,
   (resolve_duration_minutes_spec _ (by decide)).2.1 90 (by decide),
   (resolve_duration_minutes_spec _ (by decide)).2.2.1 45 (by decide) (by decide),
   (resolve_duration_minutes_spec _ (by decide)).2.2.2 60 (by decide) (by decide) (by decide)⟩

lemma run_availability_checks_pass_reason (st : Store) (amenity : Amenity)
    (rule : AmenityRule) (s e : Int) (u : Option String) (lock : Bool) :
    (run_availability_checks st amenity rule s e u lock).1 = true →
    (run_availability_checks st amenity rule s e u lock).2 = none := by
  simp only [run_availability_checks]
  split_ifs <;> simp

/-- C8: whenever the intent carries a (truthy) user id and some existing BOOKED
booking of the same amenity owned by that user overlaps `[start, end)` under the
half-open test, `_run_availability_checks` rejects with the user-overlap reason —
regardless of the capacity situation and in preference to the capacity reason. -/
theorem run_availability_checks_same_user_overlap (st : Store) (amenity : Amenity)
    (rule : AmenityRule) (s e : Int) (uid : String) (lock : Bool) (huid : uid ≠ "")
    (hex : ∃ b ∈ st.bookings, b.amenity_id = amenity.id ∧
        b.status = BookingStatus.BOOKED ∧ b.start_time < e ∧ b.end_time > s ∧
        b.user_id = some uid) :
    run_availability_checks st amenity rule s e (some uid) lock =
      (false, some "User already has an overlapping booking for this amenity.") := by
  obtain ⟨b, hb, hba, hbs, hbo1, hbo2, hbu⟩ := hex
  have hmem : b ∈ overlap_query st amenity.id s e := by
    unfold overlap_query
    rw [List.mem_filter]
    exact ⟨hb, by simp [overlapsSlot, hba, hbs, hbo1, hbo2]⟩
  have hcond : (strTruthy (some uid) &&
      (overlap_query st amenity.id s e).any
        (fun existing => decide (existing.user_id = some uid))) = true := by
    rw [Bool.and_eq_true]
    refine ⟨by simp [strTruthy, huid], ?_⟩
    rw [List.any_eq_true]
    exact ⟨b, hmem, by simp [hbu]⟩
  simp only [run_availability_checks]
  rw [if_pos hcond]

/-- Witness for C8: user `u1` holds a BOOKED overlapping booking, every slot still
has spare capacity (`max_capacity = 2`, one overlap), yet the user-overlap reason is
returned. -/
theorem run_availability_checks_same_user_overlap_witness :
    run_availability_checks
        { buildings := [], amenities := [], rules := [],
          bookings := [{ id := "b1", building_id := "bld1", amenity_id := "amen1",
                         user_id := some "u1", start_time := 1800, end_time := 3600,
                         status := BookingStatus.BOOKED, created_at := 0 }] }
        { id := "amen1", building_id := "bld1", name := "Gym", capacity := 1,
          is_active := true }
        { id := "r1", building_id := "bld1", amenity_id := "amen1", max_capacity := 2,
          max_duration_minutes := 60, slot_length_minutes := 30,
          advance_booking_limit_days := 7, operating_start_time := 21600,
          operating_end_time := 79200, allow_overlap := false }
        0 3600 (some "u1") true =
      (false, some "User already has an overlapping booking for this amenity.") :=
  run_availability_checks_same_user_overlap _ _ _ 0 3600 "u1" true (by decide)
    ⟨{ id := "b1", building_id := "bld1", amenity_id := "amen1",
       user_id := some "u1", start_time := 1800, end_time := 3600,
       status := BookingStatus.BOOKED, created_at := 0 },
     by simp, by exact ⟨rfl, rfl, by decide, by decide, rfl⟩⟩

lemma cancel_booking_eq_core (st : Store) (i : BookingIntent)
    (hid : strTruthy i.booking_id = true) (hdb : st.dbFails = false) :
    cancel_booking st i = cancel_booking_core st i := by
  unfold cancel_booking cancel_booking_tx
  rw [if_neg (by simp [hid]), if_neg (by simp [hdb])]

/-- C10: a CANCEL intent that supplies a `booking_id` but no (truthy) user id
performs no ownership check — an existing BOOKED booking is cancelled regardless of
its owner — and the "does not belong to this user" rejection can only arise when the
intent carries a truthy user id different from the booking's owner. -/
theorem cancel_by_id_skips_ownership (st : Store) (i : BookingIntent) (b : Booking)
    (hid : strTruthy i.booking_id = true)
    (hfind : (st.bookings.filter fun b0 => decide (some b0.id = i.booking_id)).head? =
      some b)
    (hdb : st.dbFails = false) :
    ((i.user_id = none ∨ i.user_id = some "") → b.status = BookingStatus.BOOKED →
      (cancel_booking st i).1.success = true ∧
      ∃ b' ∈ (cancel_booking st i).2.bookings,
        b'.id = b.id ∧ b'.status = BookingStatus.CANCELLED) ∧
    ((cancel_booking st i).1.reason = some "Booking does not belong to this user." →
      strTruthy i.user_id = true ∧ b.user_id ≠ i.user_id) := by
  rw [cancel_booking_eq_core st i hid hdb]
  simp only [cancel_booking_core]
  rw [if_pos hid, hfind]
  dsimp only
  constructor
  · intro huser hbooked
    have hu : strTruthy i.user_id = false := by
      rcases huser with h | h <;> simp [h, strTruthy]
    rw [if_neg (by simp [hu])]
    rw [if_neg (by simp [hbooked])]
    refine ⟨rfl, ?_⟩
    have hbmem : b ∈ st.bookings := by
      refine List.mem_of_mem_filter (p := fun b0 => decide (some b0.id = i.booking_id))
        (List.mem_of_mem_head? ?_)
      rw [hfind]
      rfl
    refine ⟨{ b with status := BookingStatus.CANCELLED }, ?_, rfl, rfl⟩
    exact List.mem_map.mpr ⟨b, hbmem, by simp⟩
  · intro hreason
    by_cases hc : strTruthy i.user_id = true ∧ b.user_id ≠ i.user_id
    · exact hc
    · exfalso
      rw [if_neg hc] at hreason
      by_cases hcanc : b.status = BookingStatus.CANCELLED
      · rw [if_pos hcanc] at hreason
        simp at hreason
      · rw [if_neg hcanc] at hreason
        simp at hreason

/-- Witness for C10: cancelling booking `b1` (owned by `u9`) by id with no user id on
the intent succeeds and marks it CANCELLED. -/
theorem cancel_by_id_skips_ownership_witness :
    (cancel_booking storeWithU9 cancelIntentById).1.success = true ∧
    ∃ b' ∈ (cancel_booking storeWithU9 cancelIntentById).2.bookings,
      b'.id = bookingU9.id ∧ b'.status = BookingStatus.CANCELLED :=
  (cancel_by_id_skips_ownership storeWithU9 cancelIntentById bookingU9
    (by decide) (by decide) (by decide)).1 (Or.inl rfl) rfl

lemma create_booking_eq_core (st : Store) (i : BookingIntent)
    (hsh : strTruthy i.amenity = true) (hd : i.date ≠ none) (ht : i.time ≠ none)
    (hdb : st.dbFails = false) :
    create_booking st i = create_booking_core st i := by
  unfold create_booking create_booking_tx
  rw [if_neg (by simp [hsh, hd, ht]), if_neg (by simp [hdb])]

/-- C3: on a create-booking attempt that reaches rule evaluation (amenity resolved,
rule loaded), the checks run in the fixed order resolve-duration → advance-limit →
operating-window → slot-alignment → capacity/same-user-overlap, short-circuiting on
the first failure: whenever several rules are violated simultaneously, the rejection
carries exactly the reason of the first violated check in this order. -/
theorem create_booking_short_circuit_order (st : Store) (i : BookingIntent)
    (amenity : Amenity) (rule : AmenityRule)
    (hsh : strTruthy i.amenity = true) (hd : i.date ≠ none) (ht : i.time ≠ none)
    (hdb : st.dbFails = false)
    (hres : resolve_amenity st (i.amenity.getD "") i.building_id = some amenity)
    (hrule : load_rule st amenity.id = some rule) :
    ((duration_check i rule).allowed = false →
      (create_booking st i).1 =
        { success := false, reason := (duration_check i rule).reason }) ∧
    ((duration_check i rule).allowed = true →
      (advance_check st amenity i rule).allowed = false →
      (create_booking st i).1 =
        { success := false, reason := (advance_check st amenity i rule).reason }) ∧
    ((duration_check i rule).allowed = true →
      (advance_check st amenity i rule).allowed = true →
      (hours_check i rule).allowed = false →
      (create_booking st i).1 =
        { success := false, reason := (hours_check i rule).reason }) ∧
    ((duration_check i rule).allowed = true →
      (advance_check st amenity i rule).allowed = true →
      (hours_check i rule).allowed = true →
      (slot_alignment_check i rule).allowed = false →
      (create_booking st i).1 =
        { success := false, reason := (slot_alignment_check i rule).reason }) ∧
    ((duration_check i rule).allowed = true →
      (advance_check st amenity i rule).allowed = true →
      (hours_check i rule).allowed = true →
      (slot_alignment_check i rule).allowed = true →
      (availability_check st amenity rule i true).1 = false →
      (create_booking st i).1 =
        { success := false, reason := (availability_check st amenity rule i true).2 }) := by
  rw [create_booking_eq_core st i hsh hd ht hdb]
  simp only [create_booking_core]
  rw [hres]
  dsimp only
  rw [hrule]
  dsimp only
  refine ⟨?_, ?_, ?_, ?_, ?_⟩
  · intro h1
    unfold create_booking_checked
    rw [if_pos h1]
  · intro h1 h2
    unfold create_booking_checked
    rw [if_neg (by simp [h1]), if_pos h2]
  · intro h1 h2 h3
    unfold create_booking_checked
    rw [if_neg (by simp [h1]), if_neg (by simp [h2]), if_pos h3]
  · intro h1 h2 h3 h4
    unfold create_booking_checked
    rw [if_neg (by simp [h1]), if_neg (by simp [h2]), if_neg (by simp [h3]), if_pos h4]
  · intro h1 h2 h3 h4 h5
    unfold create_booking_checked
    rw [if_neg (by simp [h1]), if_neg (by simp [h2]), if_neg (by simp [h3]),
      if_neg (by simp [h4]), if_pos h5]

/-- Witness for C3: a request with duration 45 (not a multiple of 30) dated far
beyond the 7-day advance window violates both checks at once; the returned reason is
the duration one, the first in the fixed order. -/
theorem create_booking_short_circuit_order_witness :
    (create_booking baseStore bookIntent45).1 =
      { success := false, reason := (duration_check bookIntent45 gymRule).reason } :=
  (create_booking_short_circuit_order baseStore bookIntent45 gym gymRule
    (by decide) (by decide) (by decide) (by decide) (by decide) (by decide)).1
    (by decide)

/-- C6: on a shape-complete intent and a non-failing store, `_check_availability`
runs the identical resolution + rule-check + availability pipeline as
`_create_booking` on the same state: it raises nothing, writes nothing (the store
after equals the store before), and returns `available = true` with the same
rejection reason exactly when `_create_booking` on that state would succeed. -/
theorem check_availability_refines_create (st : Store) (i : BookingIntent)
    (hsh : strTruthy i.amenity = true) (hd : i.date ≠ none) (ht : i.time ≠ none)
    (hdb : st.dbFails = false) :
    check_availability_tx st i = Except.ok (check_availability_core st i) ∧
    (check_availability_core st i).2 = st ∧
    (check_availability_core st i).1.available = some (create_booking st i).1.success ∧
    (check_availability_core st i).1.success = (create_booking st i).1.success ∧
    (check_availability_core st i).1.reason = (create_booking st i).1.reason := by
  have htx : check_availability_tx st i = Except.ok (check_availability_core st i) := by
    unfold check_availability_tx
    rw [if_neg (by simp [hsh, hd, ht]), if_neg (by simp [hdb])]
  refine ⟨htx, ?_⟩
  rw [create_booking_eq_core st i hsh hd ht hdb]
  unfold check_availability_core create_booking_core
  cases hres : resolve_amenity st (i.amenity.getD "") i.building_id with
  | none => exact ⟨rfl, rfl, rfl, rfl⟩
  | some amenity =>
    dsimp only
    cases hrule : load_rule st amenity.id with
    | none => exact ⟨rfl, rfl, rfl, rfl⟩
    | some rule =>
      dsimp only
      unfold create_booking_checked
      have hlock : availability_check st amenity rule i false =
          availability_check st amenity rule i true := rfl
      rw [hlock]
      by_cases h1 : (duration_check i rule).allowed = false
      · rw [if_pos h1, if_pos h1]
        exact ⟨rfl, rfl, rfl, rfl⟩
      · rw [if_neg h1, if_neg h1]
        by_cases h2 : (advance_check st amenity i rule).allowed = false
        · rw [if_pos h2, if_pos h2]
          exact ⟨rfl, rfl, rfl, rfl⟩
        · rw [if_neg h2, if_neg h2]
          by_cases h3 : (hours_check i rule).allowed = false
          · rw [if_pos h3, if_pos h3]
            exact ⟨rfl, rfl, rfl, rfl⟩
          · rw [if_neg h3, if_neg h3]
            by_cases h4 : (slot_alignment_check i rule).allowed = false
            · rw [if_pos h4, if_pos h4]
              exact ⟨rfl, rfl, rfl, rfl⟩
            · rw [if_neg h4, if_neg h4]
              by_cases h5 : (availability_check st amenity rule i true).1 = false
              · rw [if_pos h5]
                exact ⟨rfl, by rw [h5], h5, rfl⟩
              · rw [if_neg h5]
                have h5' : (availability_check st amenity rule i true).1 = true := by
                  cases hb : (availability_check st amenity rule i true).1
                  · exact absurd hb h5
                  · rfl
                have hr : (availability_check st amenity rule i true).2 = none :=
                  run_availability_checks_pass_reason st amenity rule
                    (requested_start_utc st amenity i)
                    (requested_end_utc st amenity i rule) i.user_id true h5'
                exact ⟨rfl, by rw [h5'], h5', hr⟩

/-- Witness for C6: a shape-complete request dated beyond the advance window —
`checkAvailability` and `createBooking` agree (both reject with the advance-window
reason), and the probing call leaves the store untouched. -/
theorem check_availability_refines_create_witness :
    check_availability_tx baseStore bookIntent60 =
      Except.ok (check_availability_core baseStore bookIntent60) ∧
    (check_availability_core baseStore bookIntent60).2 = baseStore ∧
    (check_availability_core baseStore bookIntent60).1.available =
      some (create_booking baseStore bookIntent60).1.success ∧
    (check_availability_core baseStore bookIntent60).1.success =
      (create_booking baseStore bookIntent60).1.success ∧
    (check_availability_core baseStore bookIntent60).1.reason =
      (create_booking baseStore bookIntent60).1.reason :=
  check_availability_refines_create baseStore bookIntent60
    (by decide) (by decide) (by decide) (by decide)

lemma check_availability_core_state (st : Store) (i : BookingIntent) :
    (check_availability_core st i).2 = st := by
  unfold check_availability_core
  repeat' split
  all_goals rfl

lemma cancel_core_state (st : Store) (i : BookingIntent) :
    (cancel_booking_core st i).2 = st ∨
    ∃ target : Booking, (cancel_booking_core st i).2 =
      { st with bookings := st.bookings.map fun b =>
          if b.id = target.id then { b with status := BookingStatus.CANCELLED }
          else b } := by
  unfold cancel_booking_core
  dsimp only
  repeat' split
  all_goals first
  | (left; rfl)
  | (right; exact ⟨_, rfl⟩)

lemma create_core_state (st : Store) (i : BookingIntent) :
    (create_booking_core st i).2 = st ∨
    ∃ bk : Booking, (create_booking_core st i).2 =
      { st with bookings := st.bookings ++ [bk], fresh := st.fresh + 1 } := by
  unfold create_booking_core create_booking_checked
  repeat' split
  all_goals first
  | (left; rfl)
  | (right; exact ⟨_, rfl⟩)

lemma cancelled_preserved_in_map (bs : List Booking) (target : Booking) (b : Booking)
    (hb : b ∈ bs) (hc : b.status = BookingStatus.CANCELLED) :
    ∃ b' ∈ bs.map (fun b0 =>
        if b0.id = target.id then { b0 with status := BookingStatus.CANCELLED }
        else b0),
      b'.id = b.id ∧ b'.status = BookingStatus.CANCELLED := by
  by_cases h : b.id = target.id
  · exact ⟨{ b with status := BookingStatus.CANCELLED },
      List.mem_map.mpr ⟨b, hb, by rw [if_pos h]⟩, rfl, rfl⟩
  · exact ⟨b, List.mem_map.mpr ⟨b, hb, by rw [if_neg h]⟩, rfl, hc⟩

lemma cancelled_preserved_cancel (st : Store) (i : BookingIntent) (b : Booking)
    (hb : b ∈ st.bookings) (hc : b.status = BookingStatus.CANCELLED) :
    ∃ b' ∈ (cancel_booking st i).2.bookings,
      b'.id = b.id ∧ b'.status = BookingStatus.CANCELLED := by
  unfold cancel_booking cancel_booking_tx
  split_ifs
  · exact ⟨b, hb, rfl, hc⟩
  · exact ⟨b, hb, rfl, hc⟩
  · show ∃ b' ∈ (cancel_booking_core st i).2.bookings,
      b'.id = b.id ∧ b'.status = BookingStatus.CANCELLED
    rcases cancel_core_state st i with h | ⟨target, h⟩
    · rw [h]
      exact ⟨b, hb, rfl, hc⟩
    · rw [h]
      exact cancelled_preserved_in_map st.bookings target b hb hc

lemma cancelled_preserved_create (st : Store) (i : BookingIntent) (b : Booking)
    (hb : b ∈ st.bookings) (hc : b.status = BookingStatus.CANCELLED) :
    ∃ b' ∈ (create_booking st i).2.bookings,
      b'.id = b.id ∧ b'.status = BookingStatus.CANCELLED := by
  unfold create_booking create_booking_tx
  split_ifs
  · exact ⟨b, hb, rfl, hc⟩
  · exact ⟨b, hb, rfl, hc⟩
  · show ∃ b' ∈ (create_booking_core st i).2.bookings,
      b'.id = b.id ∧ b'.status = BookingStatus.CANCELLED
    rcases create_core_state st i with h | ⟨bk, h⟩
    · rw [h]
      exact ⟨b, hb, rfl, hc⟩
    · rw [h]
      exact ⟨b, List.mem_append_left _ hb, rfl, hc⟩

lemma update_amenity_rules_bookings (st : Store)
    (payload : Option AmenityRuleUpdateRequest) :
    (update_amenity_rules st payload).2.bookings = st.bookings := by
  unfold update_amenity_rules update_amenity_rules_core
  dsimp only
  repeat' split
  all_goals rfl

lemma upsert_amenity_bookings (st : Store) (payload : Option AmenityUpsertRequest) :
    (upsert_amenity st payload).2.bookings = st.bookings := by
  unfold upsert_amenity upsert_amenity_core
  dsimp only
  repeat' split
  all_goals rfl

/-- C4: cancellation is idempotent-safe and CANCELLED is terminal.  For a booking
located by id (ownership check passing): if it is BOOKED, the cancel succeeds, the
result status is CANCELLED, and every stored row with that id is CANCELLED
afterwards; if it is already CANCELLED, the cancel returns `success = false` with
the "Booking already cancelled." reason and leaves the store unchanged.  Moreover no
engine operation — `execute_booking` (create / cancel / check-availability),
`update_amenity_rules`, or `upsert_amenity` — ever removes a CANCELLED booking or
transitions it out of CANCELLED. -/
theorem cancel_idempotent_and_terminal (st : Store) :
    (∀ (i : BookingIntent) (b : Booking),
      strTruthy i.booking_id = true →
      (st.bookings.filter fun b0 => decide (some b0.id = i.booking_id)).head? = some b →
      ¬(strTruthy i.user_id = true ∧ b.user_id ≠ i.user_id) →
      st.dbFails = false →
      b.status = BookingStatus.BOOKED →
      (cancel_booking st i).1.success = true ∧
      (cancel_booking st i).1.status = some BookingStatus.CANCELLED ∧
      ∀ b' ∈ (cancel_booking st i).2.bookings,
        b'.id = b.id → b'.status = BookingStatus.CANCELLED) ∧
    (∀ (i : BookingIntent) (b : Booking),
      strTruthy i.booking_id = true →
      (st.bookings.filter fun b0 => decide (some b0.id = i.booking_id)).head? = some b →
      ¬(strTruthy i.user_id = true ∧ b.user_id ≠ i.user_id) →
      st.dbFails = false →
      b.status = BookingStatus.CANCELLED →
      (cancel_booking st i).1.success = false ∧
      (cancel_booking st i).1.reason = some "Booking already cancelled." ∧
      (cancel_booking st i).2 = st) ∧
    (∀ (payload : Option BookingIntent) (b : Booking) (r : BookingResult) (st2 : Store),
      b ∈ st.bookings → b.status = BookingStatus.CANCELLED →
      execute_booking st payload = Except.ok (r, st2) →
      ∃ b' ∈ st2.bookings, b'.id = b.id ∧ b'.status = BookingStatus.CANCELLED) ∧
    (∀ (payload : Option AmenityRuleUpdateRequest) (b : Booking),
      b ∈ st.bookings → b.status = BookingStatus.CANCELLED →
      ∃ b' ∈ (update_amenity_rules st payload).2.bookings,
        b'.id = b.id ∧ b'.status = BookingStatus.CANCELLED) ∧
    (∀ (payload : Option AmenityUpsertRequest) (b : Booking),
      b ∈ st.bookings → b.status = BookingStatus.CANCELLED →
      ∃ b' ∈ (upsert_amenity st payload).2.bookings,
        b'.id = b.id ∧ b'.status = BookingStatus.CANCELLED) := by
  refine ⟨?_, ?_, ?_, ?_, ?_⟩
  · intro i b hid hfind hown hdb hbooked
    rw [cancel_booking_eq_core st i hid hdb]
    simp only [cancel_booking_core]
    rw [if_pos hid, hfind]
    dsimp only
    rw [if_neg hown, if_neg (by simp [hbooked])]
    refine ⟨rfl, rfl, ?_⟩
    intro b' hb' hid'
    obtain ⟨a, _, rfl⟩ := List.mem_map.mp hb'
    by_cases h : a.id = b.id
    · rw [if_pos h]
    · rw [if_neg h] at hid' ⊢
      exact absurd hid' h
  · intro i b hid hfind hown hdb hcanc
    rw [cancel_booking_eq_core st i hid hdb]
    simp only [cancel_booking_core]
    rw [if_pos hid, hfind]
    dsimp only
    rw [if_neg hown, if_pos hcanc]
    exact ⟨rfl, rfl, rfl⟩
  · intro payload b r st2 hb hc hexec
    unfold execute_booking at hexec
    cases payload with
    | none =>
      simp only [Except.ok.injEq, Prod.mk.injEq] at hexec
      rw [← hexec.2]
      exact ⟨b, hb, rfl, hc⟩
    | some i =>
      dsimp only at hexec
      by_cases hv : (!validateIntent i) = true
      · rw [if_pos hv] at hexec
        simp only [Except.ok.injEq, Prod.mk.injEq] at hexec
        rw [← hexec.2]
        exact ⟨b, hb, rfl, hc⟩
      · rw [if_neg hv] at hexec
        cases hi : i.intent <;> rw [hi] at hexec <;> dsimp only at hexec
        · simp only [Except.ok.injEq] at hexec
          have h2 : st2 = (create_booking st i).2 := by rw [hexec]
          rw [h2]
          exact cancelled_preserved_create st i b hb hc
        · simp only [Except.ok.injEq] at hexec
          have h2 : st2 = (create_booking st i).2 := by rw [hexec]
          rw [h2]
          exact cancelled_preserved_create st i b hb hc
        · simp only [Except.ok.injEq] at hexec
          have h2 : st2 = (cancel_booking st i).2 := by rw [hexec]
          rw [h2]
          exact cancelled_preserved_cancel st i b hb hc
        · simp only [Except.ok.injEq] at hexec
          have h2 : st2 = (cancel_booking st i).2 := by rw [hexec]
          rw [h2]
          exact cancelled_preserved_cancel st i b hb hc
        · unfold check_availability_tx at hexec
          split_ifs at hexec
          · simp only [Except.ok.injEq, Prod.mk.injEq] at hexec
            rw [← hexec.2]
            exact ⟨b, hb, rfl, hc⟩
          · simp only [Except.ok.injEq] at hexec
            have h2 : st2 = (check_availability_core st i).2 := by rw [hexec]
            rw [h2, check_availability_core_state]
            exact ⟨b, hb, rfl, hc⟩
  · intro payload b hb hc
    rw [update_amenity_rules_bookings]
    exact ⟨b, hb, rfl, hc⟩
  · intro payload b hb hc
    rw [upsert_amenity_bookings]
    exact ⟨b, hb, rfl, hc⟩

/-- Witness for C4: a second cancel of the already-CANCELLED booking `b1` returns
`success = false` with the "already cancelled" reason and leaves the store
unchanged. -/
theorem cancel_idempotent_and_terminal_witness :
    (cancel_booking storeCancelledU9 cancelIntentById).1.success = false ∧
    (cancel_booking storeCancelledU9 cancelIntentById).1.reason =
      some "Booking already cancelled." ∧
    (cancel_booking storeCancelledU9 cancelIntentById).2 = storeCancelledU9 :=
  (cancel_idempotent_and_terminal storeCancelledU9).2.1 cancelIntentById
    { bookingU9 with status := BookingStatus.CANCELLED }
    (by decide) (by decide) (by decide) (by decide) rfl

/-- C2 (counterevidence): on a store holding the rule
`{max_duration = 60, slot_length = 30}`, the admin mutation setting
`slot_length_minutes := 45` is rejected with the must-be-a-multiple invariant
reason, yet the merged value `slot_length_minutes = 45` IS persisted: the
invariant-rejection `return` exits `with db.begin():` normally, which commits the
pending ORM mutations instead of rolling them back. -/
theorem update_amenity_rules_commits_rejected_merge :
    (update_amenity_rules baseStore (some ruleReq45)).1.success = false ∧
    (update_amenity_rules baseStore (some ruleReq45)).1.reason =
      some "max_duration_minutes must be a multiple of slot_length_minutes." ∧
    (update_amenity_rules baseStore (some ruleReq45)).2.rules =
      [{ gymRule with slot_length_minutes := 45 }] := by
  refine ⟨?_, ?_, ?_⟩ <;> decide

/-- C5 (counterevidence): with the persistence layer failing, a shape-complete
CHECK_AVAILABILITY intent makes `execute_booking` propagate the storage exception
(`.error ()`) — `_check_availability` has no `try/except SQLAlchemyError` — while
the same failure on the BOOK path is caught and surfaced as the generic
"Database error while creating booking." reason. -/
theorem execute_booking_check_availability_exception_escapes :
    execute_booking storeFail (some checkIntent60) = Except.error () ∧
    execute_booking storeFail (some bookIntent60) =
      Except.ok
        ({ success := false, reason := some "Database error while creating booking." },
          storeFail) := by
  refine ⟨?_, ?_⟩ <;> rfl
